import Mathlib

/-!
Verification development for the saas-webhooks Webhook Intake & Replay
Processor (saas-starter-workspace/saas-webhooks).  The definitions below are a
shallow embedding of the Python code shown in the service README
(`_verify_signature`, `receive_webhook`, `replay_event`, `_process_event`, the
idempotency check and the `WebhookLogEntry` log record): timestamps are `Nat`,
the in-memory `_EVENTS` dict is an association list, the detached
`background_tasks.add_task` calls are recorded as a list of scheduled payloads,
and the side-effecting `_dispatch_subscription_notifications` call is an
explicit `Except String Unit` outcome parameter.
-/

namespace SaasWebhooks

/-- The `status` field of a `WebhookLogEntry`: `queued`, `processed`, `failed`,
`retry_scheduled` (README "Log fields"). -/
inductive Status where
  | queued
  | processed
  | failed
  | retry_scheduled
deriving DecidableEq, Repr

/-- The event record persisted for every webhook (README "Event Logging" and
"Log fields"): `processed_at` and `last_error` are nullable, `attempts` and
`replay_count` are counters, `metadata` stores the original event body. -/
structure WebhookLogEntry where
  event_id : String
  event_type : String
  status : Status
  received_at : Nat
  processed_at : Option Nat
  attempts : Nat
  replay_count : Nat
  last_error : Option String
  metadata : String
deriving DecidableEq, Repr

/-- The inbound webhook payload `StripeWebhookRequest`: `{id, type, data}`. -/
structure StripeWebhookRequest where
  id : String
  event_type : String
  data : String
deriving DecidableEq, Repr

/-- The in-memory event store `_EVENTS: dict[str, WebhookLogEntry]`,
embedded as an association list from event id to record. -/
abbrev Store := List (String × WebhookLogEntry)

/-- `_EVENTS.get(event_id)` / `_EVENTS[event_id]`: look a record up by id. -/
def store_get (s : Store) (k : String) : Option WebhookLogEntry :=
  match s with
  | [] => none
  | (k', v) :: rest => if k' = k then some v else store_get rest k

/-- `_EVENTS[event_id] = record`: insert or replace the record under `k`
(appending at the end when absent, matching dict insertion order). -/
def store_set (s : Store) (k : String) (v : WebhookLogEntry) : Store :=
  match s with
  | [] => [(k, v)]
  | (k', v') :: rest => if k' = k then (k, v) :: rest else (k', v') :: store_set rest k v

theorem store_get_set_self (s : Store) (k : String) (v : WebhookLogEntry) :
    store_get (store_set s k v) k = some v := by
  induction s with
  | nil => simp [store_set, store_get]
  | cons hd tl ih =>
    obtain ⟨k', v'⟩ := hd
    by_cases h : k' = k
    · simp [store_set, store_get, h]
    · simp [store_set, store_get, h, ih]

/-- The fresh record the intake path persists on first sighting of an event
(README "Event Logging": `status="queued"`, `attempts=0`, plus the remaining
log fields at their initial values: `replay_count=0`, `processed_at` and
`last_error` null, `metadata` holding the original event body). -/
def new_record (p : StripeWebhookRequest) (now : Nat) : WebhookLogEntry :=
  { event_id := p.id
    event_type := p.event_type
    status := .queued
    received_at := now
    processed_at := none
    attempts := 0
    replay_count := 0
    last_error := none
    metadata := p.data }

/-- `async def _process_event(event)` (README "Retry Logic" snippet), acting on
the record looked up for the event: increment `attempts`; on dispatch success
set `status="processed"` and `processed_at=now`; on dispatch failure set
`last_error=str(exc)` and `status="failed"`, then downgrade to
`"retry_scheduled"` while `attempts < max_attempts`.  The awaited
`_dispatch_subscription_notifications` call is the `outcome` parameter, the
clock `_utc_now()` is `now`, and `max_attempts` is the parsed
`WEBHOOKS_MAX_RETRIES` configuration value. -/
def _process_event (r : WebhookLogEntry) (outcome : Except String Unit)
    (now : Nat) (max_attempts : Nat) : WebhookLogEntry :=
  let r := { r with attempts := r.attempts + 1 }
  match outcome with
  | .ok _ => { r with status := .processed, processed_at := some now }
  | .error exc =>
    let r := { r with last_error := some exc, status := .failed }
    if r.attempts < max_attempts then { r with status := .retry_scheduled } else r

/-- C5 counterexample scaffolding and trace semantics: a single step of the
record's life after intake is either a processing attempt (an `_process_event`
run with its dispatch outcome and clock reading) or a replay bump of
`replay_count` (the only record mutation `replay_event` performs itself). -/
inductive RecordStep where
  | attempt (outcome : Except String Unit) (now : Nat)
  | replay
deriving Repr

/-- Apply one `RecordStep` to a record. -/
def apply_step (max_attempts : Nat) (r : WebhookLogEntry) : RecordStep → WebhookLogEntry
  | .attempt outcome now => _process_event r outcome now max_attempts
  | .replay => { r with replay_count := r.replay_count + 1 }

/-- Run a sequence of record steps from a starting record. -/
def run_steps (r : WebhookLogEntry) (steps : List RecordStep) (max_attempts : Nat) :
    WebhookLogEntry :=
  steps.foldl (apply_step max_attempts) r

/-- The response dict of the intake endpoint.  `attempts := none` means the
`attempts` key is absent from the returned dict (the README's accepted-path
return carries only `status` and `event_id`); the duplicate-path return of the
idempotency snippet carries all three keys. -/
structure IntakeResponse where
  status : String
  event_id : String
  attempts : Option Nat
deriving DecidableEq, Repr

/-- Result of one `receive_webhook` request: the response dict, the store after
the request, and the payloads handed to `background_tasks.add_task`. -/
structure IntakeResult where
  response : IntakeResponse
  store : Store
  tasks : List StripeWebhookRequest
deriving DecidableEq, Repr

/-- Modelled from the spec: the README's `receive_webhook` snippet elides its
body to numbered comments (verify signature, check idempotency, persist log
entry, queue background processing), so the sequencing of those steps follows
the spec's Intake Handler contract (Step 2: on duplicate, answer immediately
with the current `attempts` and do not re-dispatch; Step 3: on first sighting,
persist and schedule).  The duplicate branch itself is the README's
idempotency snippet (`_EVENTS.get`, early return of
`{status: "duplicate", event_id, attempts}`), the persisted entry is the
README's `WebhookLogEntry(... status="queued", attempts=0 ...)` example, and
the accepted return is the snippet's literal
`{"status": "accepted", "event_id": payload.id}`.  Signature verification is
upstream of this function and out of its state. -/
def receive_webhook (s : Store) (payload : StripeWebhookRequest) (now : Nat) :
    IntakeResult :=
  match store_get s payload.id with
  | some existing =>
    { response :=
        { status := "duplicate", event_id := payload.id, attempts := some existing.attempts }
      store := s
      tasks := [] }
  | none =>
    let entry := new_record payload now
    { response := { status := "accepted", event_id := payload.id, attempts := none }
      store := store_set s payload.id entry
      tasks := [payload] }

/-- Errors the replay endpoint can surface to its caller. -/
inductive ReplayError where
  | NotFound
deriving DecidableEq, Repr

/-- The response dict of the replay endpoint (the README snippet returns
`{"status": "replay_accepted"}`). -/
structure ReplayResponse where
  status : String
deriving DecidableEq, Repr

/-- Result of one `replay_event` request: the outcome surfaced to the caller,
the store after the request, and the payloads handed to
`background_tasks.add_task`. -/
structure ReplayResult where
  outcome : Except ReplayError ReplayResponse
  store : Store
  tasks : List StripeWebhookRequest
deriving Repr

/-- Modelled from the spec: the absent-id branch (`NotFound`, store untouched,
nothing scheduled) follows the spec's Replay Handler contract, since the
README's `replay_event` snippet elides it.  The present-id branch is the
snippet: `event.replay_count += 1`, reconstruct a `StripeWebhookRequest` from
the stored `event_id`, `event_type` and `metadata`, hand it to
`background_tasks.add_task(_process_event, replay_payload)`, and return
`{"status": "replay_accepted"}`. -/
def replay_event (s : Store) (event_id : String) : ReplayResult :=
  match store_get s event_id with
  | none => { outcome := .error .NotFound, store := s, tasks := [] }
  | some event =>
    let event := { event with replay_count := event.replay_count + 1 }
    let replay_payload : StripeWebhookRequest :=
      { id := event.event_id, event_type := event.event_type, data := event.metadata }
    { outcome := .ok { status := "replay_accepted" }
      store := store_set s event_id event
      tasks := [replay_payload] }

/-- The full detached `_process_event` task as the background runner sees it:
`record = _EVENTS[event.id]` raises a `KeyError` (an `.error`) when the id is
absent; otherwise the try/except body of the README snippet runs, every
business-level dispatch outcome is absorbed into the record, and the updated
store is returned. -/
def process_event_task (s : Store) (p : StripeWebhookRequest)
    (outcome : Except String Unit) (now : Nat) (max_attempts : Nat) :
    Except String Store :=
  match store_get s p.id with
  | none => .error ("KeyError: " ++ p.id)
  | some record => .ok (store_set s p.id (_process_event record outcome now max_attempts))

/-- Run a sequence of consecutive failed attempts (each a pair of error
message and clock reading) through `_process_event`. -/
def run_failed_attempts (r : WebhookLogEntry) (failures : List (String × Nat))
    (max_attempts : Nat) : WebhookLogEntry :=
  failures.foldl (fun acc f => _process_event acc (.error f.1) f.2 max_attempts) r

/-- Whether a record step is a processing attempt whose dispatch succeeded. -/
def step_succeeded : RecordStep → Bool
  | .attempt (.ok _) _ => true
  | .attempt (.error _) _ => false
  | .replay => false

theorem process_event_ok (r : WebhookLogEntry) (t m : Nat) :
    _process_event r (.ok ()) t m =
      { r with attempts := r.attempts + 1, status := .processed, processed_at := some t } :=
  rfl

theorem process_event_error (r : WebhookLogEntry) (e : String) (t m : Nat) :
    _process_event r (.error e) t m =
      if r.attempts + 1 < m then
        { r with attempts := r.attempts + 1, last_error := some e, status := .retry_scheduled }
      else
        { r with attempts := r.attempts + 1, last_error := some e, status := .failed } := by
  show (if r.attempts + 1 < m then _ else _) = _
  split <;> rfl

theorem process_event_over_limit (r : WebhookLogEntry) (e : String) (t m : Nat)
    (h : m ≤ r.attempts + 1) :
    _process_event r (.error e) t m =
      { r with attempts := r.attempts + 1, last_error := some e, status := .failed } := by
  rw [process_event_error, if_neg (by omega)]

theorem run_failed_attempts_failed (m : Nat) :
    ∀ (failures : List (String × Nat)) (r : WebhookLogEntry),
      r.status = .failed → m ≤ r.attempts →
      (run_failed_attempts r failures m).status = .failed ∧
      m ≤ (run_failed_attempts r failures m).attempts
  | [], _, hs, ha => ⟨hs, ha⟩
  | f :: fs, r, _, ha => by
    have hstep := process_event_over_limit r f.1 f.2 m (by omega)
    have hrw : run_failed_attempts r (f :: fs) m =
        run_failed_attempts (_process_event r (.error f.1) f.2 m) fs m := rfl
    rw [hrw, hstep]
    exact run_failed_attempts_failed m fs _ rfl (by simp; omega)

/-- C9: on a failed processing attempt, `_process_event` writes only `status`
and `last_error` (plus the attempt's own `attempts` increment, which happens
before the try block): `event_id`, `event_type`, `received_at`,
`replay_count`, `metadata` and, in particular, a `processed_at` timestamp set
by an earlier successful attempt are all left unchanged. -/
theorem process_event_failure_frame (r : WebhookLogEntry) (e : String) (t m : Nat) :
    (_process_event r (.error e) t m).event_id = r.event_id ∧
    (_process_event r (.error e) t m).event_type = r.event_type ∧
    (_process_event r (.error e) t m).received_at = r.received_at ∧
    (_process_event r (.error e) t m).replay_count = r.replay_count ∧
    (_process_event r (.error e) t m).metadata = r.metadata ∧
    (_process_event r (.error e) t m).processed_at = r.processed_at := by
  rw [process_event_error]
  split <;> simp

/-- C5 (amended): whenever an attempt's side-effecting action succeeds, the
record is left with `status=processed` and `processed_at=now`; `last_error`,
however, is left unchanged by the success branch, not cleared. -/
theorem process_event_success_outcome (r : WebhookLogEntry) (t m : Nat) :
    (_process_event r (.ok ()) t m).status = .processed ∧
    (_process_event r (.ok ()) t m).processed_at = some t ∧
    (_process_event r (.ok ()) t m).last_error = r.last_error ∧
    (_process_event r (.ok ()) t m).attempts = r.attempts + 1 := by
  rw [process_event_ok]
  simp

/-- C5 counterexample: starting from a freshly created record, one failed
attempt (error "boom") followed by one successful attempt leaves
`last_error = some "boom"` on a record whose `status` is `processed`: the
success branch does not clear `last_error`, contradicting the claim that a
successful attempt leaves `last_error` null. -/
theorem process_event_success_keeps_last_error :
    (_process_event
      (run_steps (new_record { id := "evt_1", event_type := "x.y", data := "{}" } 0)
        [.attempt (.error "boom") 1] 3)
      (.ok ()) 2 3).status = .processed ∧
    (_process_event
      (run_steps (new_record { id := "evt_1", event_type := "x.y", data := "{}" } 0)
        [.attempt (.error "boom") 1] 3)
      (.ok ()) 2 3).last_error = some "boom" :=
  ⟨rfl, rfl⟩

/-- C3: once a processing attempt fails with the attempt counter at or above
`max_attempts` (the counter as recorded by the attempt itself, i.e. after the
`record.attempts += 1` that precedes the try block, matching the code's
`record.attempts < max_attempts` check), the record's status is `failed`, and
any further sequence of failed attempts leaves the status equal to `failed` —
no transition back to `retry_scheduled`. -/
theorem failed_status_terminal (r : WebhookLogEntry) (e : String) (t m : Nat)
    (failures : List (String × Nat)) (h : m ≤ r.attempts + 1) :
    (_process_event r (.error e) t m).status = .failed ∧
    (run_failed_attempts (_process_event r (.error e) t m) failures m).status = .failed := by
  rw [process_event_over_limit r e t m h]
  exact ⟨rfl, (run_failed_attempts_failed m failures _ rfl (by simp; omega)).1⟩

/-- Witness for C3 at a concrete record that has already accumulated two
attempts against `max_attempts = 3`: the next failure lands on `failed` and a
further failure stays `failed`. -/
theorem failed_status_terminal_w :
    3 ≤ ({ event_id := "evt_1", event_type := "x.y", status := Status.retry_scheduled,
           received_at := 0, processed_at := none, attempts := 2, replay_count := 0,
           last_error := some "boom", metadata := "{}" } : WebhookLogEntry).attempts + 1 ∧
    (_process_event
      { event_id := "evt_1", event_type := "x.y", status := Status.retry_scheduled,
        received_at := 0, processed_at := none, attempts := 2, replay_count := 0,
        last_error := some "boom", metadata := "{}" } (.error "err3") 7 3).status = .failed ∧
    (run_failed_attempts
      (_process_event
        { event_id := "evt_1", event_type := "x.y", status := Status.retry_scheduled,
          received_at := 0, processed_at := none, attempts := 2, replay_count := 0,
          last_error := some "boom", metadata := "{}" } (.error "err3") 7 3)
      [("err4", 8)] 3).status = .failed :=
  ⟨by decide,
   failed_status_terminal
     { event_id := "evt_1", event_type := "x.y", status := Status.retry_scheduled,
       received_at := 0, processed_at := none, attempts := 2, replay_count := 0,
       last_error := some "boom", metadata := "{}" } "err3" 7 3 [("err4", 8)] (by decide)⟩

theorem run_steps_processed_at (m : Nat) :
    ∀ (steps : List RecordStep) (r : WebhookLogEntry),
      ((run_steps r steps m).processed_at ≠ none ↔
        (r.processed_at ≠ none ∨ steps.any step_succeeded = true))
  | [], r => by simp [run_steps]
  | step :: steps, r => by
    have hrw : run_steps r (step :: steps) m = run_steps (apply_step m r step) steps m := rfl
    rw [hrw, run_steps_processed_at m steps]
    match step with
    | .attempt (.ok u) t =>
      cases u
      simp [apply_step, process_event_ok, step_succeeded]
    | .attempt (.error e) t =>
      have hfr : (apply_step m r (.attempt (.error e) t)).processed_at = r.processed_at := by
        simp only [apply_step]
        rw [process_event_error]
        split <;> rfl
      rw [hfr]
      simp [step_succeeded]
    | .replay =>
      simp [apply_step, step_succeeded]

/-- C6 (amended): over every trace of processing attempts and replays starting
from a freshly created record, `processed_at` is non-null if and only if some
attempt in the trace succeeded; it is set on success and never cleared again,
so a later failed attempt leaves `processed_at` non-null even though the most
recent transition did not land on `processed`. -/
theorem processed_at_iff_ever_succeeded (p : StripeWebhookRequest) (t0 m : Nat)
    (steps : List RecordStep) :
    (run_steps (new_record p t0) steps m).processed_at ≠ none ↔
      steps.any step_succeeded = true := by
  rw [run_steps_processed_at m steps (new_record p t0)]
  simp [new_record]

/-- C6 counterexample: a successful attempt followed by a failed attempt (with
`max_attempts = 3`) reaches a record whose `processed_at` is non-null while
its status — the landing point of the most recent transition — is
`retry_scheduled`, not `processed`, so the claimed biconditional fails on this
reachable state. -/
theorem processed_at_claim_cex :
    (run_steps (new_record { id := "evt_1", event_type := "x.y", data := "{}" } 0)
      [.attempt (.ok ()) 1, .attempt (.error "boom") 2] 3).processed_at = some 1 ∧
    (run_steps (new_record { id := "evt_1", event_type := "x.y", data := "{}" } 0)
      [.attempt (.ok ()) 1, .attempt (.error "boom") 2] 3).status = .retry_scheduled :=
  ⟨rfl, rfl⟩

theorem receive_webhook_accepted (s : Store) (p : StripeWebhookRequest) (t : Nat)
    (h : store_get s p.id = none) :
    receive_webhook s p t =
      { response := { status := "accepted", event_id := p.id, attempts := none }
        store := store_set s p.id (new_record p t)
        tasks := [p] } := by
  simp [receive_webhook, h]

theorem receive_webhook_duplicate (s : Store) (p : StripeWebhookRequest) (t : Nat)
    (rec : WebhookLogEntry) (h : store_get s p.id = some rec) :
    receive_webhook s p t =
      { response := { status := "duplicate", event_id := p.id, attempts := some rec.attempts }
        store := s
        tasks := [] } := by
  simp [receive_webhook, h]

/-- C1: intaking the same event id twice yields a created acceptance the
first time (the record is persisted and the processor is scheduled exactly
once) and a non-created duplicate the second time; in general, any intake of
an id already in the store answers "duplicate" carrying the stored record's
current `attempts`, leaves the store unchanged, and schedules nothing. -/
theorem intake_idempotent (s s2 : Store) (p : StripeWebhookRequest)
    (rec : WebhookLogEntry) (t1 t2 t3 : Nat)
    (h1 : store_get s p.id = none) (h2 : store_get s2 p.id = some rec) :
    (receive_webhook s p t1).response.status = "accepted" ∧
    (receive_webhook s p t1).tasks = [p] ∧
    store_get (receive_webhook s p t1).store p.id = some (new_record p t1) ∧
    (receive_webhook (receive_webhook s p t1).store p t2).response =
      { status := "duplicate", event_id := p.id, attempts := some 0 } ∧
    (receive_webhook s2 p t3).response =
      { status := "duplicate", event_id := p.id, attempts := some rec.attempts } ∧
    (receive_webhook s2 p t3).store = s2 ∧
    (receive_webhook s2 p t3).tasks = [] := by
  have hacc := receive_webhook_accepted s p t1 h1
  have hget : store_get (receive_webhook s p t1).store p.id = some (new_record p t1) := by
    rw [hacc]
    exact store_get_set_self s p.id (new_record p t1)
  have hdup1 := receive_webhook_duplicate _ p t2 _ hget
  have hdup2 := receive_webhook_duplicate s2 p t3 rec h2
  refine ⟨?_, ?_, hget, ?_, ?_, ?_, ?_⟩
  · rw [hacc]
  · rw [hacc]
  · rw [hdup1]
    simp [new_record]
  · rw [hdup2]
  · rw [hdup2]
  · rw [hdup2]

/-- Witness for C1: a fresh store, then a duplicate intake of `"evt_1"`. -/
theorem intake_idempotent_w :
    store_get ([] : Store) "evt_1" = none ∧
    store_get (receive_webhook [] { id := "evt_1", event_type := "x.y", data := "{}" } 0).store
      "evt_1" = some (new_record { id := "evt_1", event_type := "x.y", data := "{}" } 0) ∧
    (receive_webhook [] { id := "evt_1", event_type := "x.y", data := "{}" } 0).response.status
      = "accepted" ∧
    (receive_webhook
      (receive_webhook [] { id := "evt_1", event_type := "x.y", data := "{}" } 0).store
      { id := "evt_1", event_type := "x.y", data := "{}" } 1).response =
      { status := "duplicate", event_id := "evt_1", attempts := some 0 } ∧
    (receive_webhook
      (receive_webhook [] { id := "evt_1", event_type := "x.y", data := "{}" } 0).store
      { id := "evt_1", event_type := "x.y", data := "{}" } 1).store =
      (receive_webhook [] { id := "evt_1", event_type := "x.y", data := "{}" } 0).store ∧
    (receive_webhook
      (receive_webhook [] { id := "evt_1", event_type := "x.y", data := "{}" } 0).store
      { id := "evt_1", event_type := "x.y", data := "{}" } 1).tasks = [] := by
  have h := intake_idempotent []
    (receive_webhook [] { id := "evt_1", event_type := "x.y", data := "{}" } 0).store
    { id := "evt_1", event_type := "x.y", data := "{}" }
    (new_record { id := "evt_1", event_type := "x.y", data := "{}" } 0) 0 1 1
    (by decide) (by decide)
  exact ⟨by decide, h.2.2.1, h.1, h.2.2.2.1, h.2.2.2.2.2.1, h.2.2.2.2.2.2⟩

/-- C4: replaying an id absent from the store fails with `NotFound`, leaves
the store unchanged and schedules nothing; replaying a present id succeeds
with the "replay_accepted" acknowledgment, rewrites the record with
`replay_count` incremented by exactly 1 and every other field (in particular
`attempts`) untouched, and delegates processing by scheduling the payload
reconstructed from the stored record. -/
theorem replay_event_contract (s s2 : Store) (eid eid2 : String) (rec : WebhookLogEntry)
    (h1 : store_get s eid = none) (h2 : store_get s2 eid2 = some rec) :
    replay_event s eid = { outcome := .error .NotFound, store := s, tasks := [] } ∧
    (replay_event s2 eid2).outcome = .ok { status := "replay_accepted" } ∧
    store_get (replay_event s2 eid2).store eid2 =
      some { rec with replay_count := rec.replay_count + 1 } ∧
    ({ rec with replay_count := rec.replay_count + 1 } : WebhookLogEntry).attempts
      = rec.attempts ∧
    (replay_event s2 eid2).tasks =
      [{ id := rec.event_id, event_type := rec.event_type, data := rec.metadata }] := by
  refine ⟨by simp [replay_event, h1], by simp [replay_event, h2], ?_, rfl, ?_⟩
  · simp [replay_event, h2, store_get_set_self]
  · simp [replay_event, h2]

/-- Witness for C4: replay of `"evt_x"` on the empty store is `NotFound`;
replay of `"evt_1"` on a one-record store bumps only `replay_count`. -/
theorem replay_event_contract_w :
    replay_event ([] : Store) "evt_x" =
      { outcome := .error .NotFound, store := [], tasks := [] } ∧
    (replay_event [("evt_1", new_record { id := "evt_1", event_type := "x.y", data := "{}" } 0)]
      "evt_1").outcome = .ok { status := "replay_accepted" } ∧
    store_get
      (replay_event [("evt_1", new_record { id := "evt_1", event_type := "x.y", data := "{}" } 0)]
        "evt_1").store "evt_1" =
      some { new_record { id := "evt_1", event_type := "x.y", data := "{}" } 0 with
             replay_count :=
               (new_record { id := "evt_1", event_type := "x.y", data := "{}" } 0).replay_count
                 + 1 } ∧
    ({ new_record { id := "evt_1", event_type := "x.y", data := "{}" } 0 with
       replay_count :=
         (new_record { id := "evt_1", event_type := "x.y", data := "{}" } 0).replay_count + 1 } :
       WebhookLogEntry).attempts =
      (new_record { id := "evt_1", event_type := "x.y", data := "{}" } 0).attempts ∧
    (replay_event [("evt_1", new_record { id := "evt_1", event_type := "x.y", data := "{}" } 0)]
      "evt_1").tasks =
      [{ id := (new_record { id := "evt_1", event_type := "x.y", data := "{}" } 0).event_id,
         event_type :=
           (new_record { id := "evt_1", event_type := "x.y", data := "{}" } 0).event_type,
         data := (new_record { id := "evt_1", event_type := "x.y", data := "{}" } 0).metadata }] := by
  have h := replay_event_contract []
    [("evt_1", new_record { id := "evt_1", event_type := "x.y", data := "{}" } 0)]
    "evt_x" "evt_1" (new_record { id := "evt_1", event_type := "x.y", data := "{}" } 0)
    (by decide) (by simp [store_get])
  exact ⟨h.1, h.2.1, h.2.2.1, h.2.2.2.1, h.2.2.2.2⟩

/-- C7: whenever the event id is present in the store (as it is for every
task scheduled by intake or replay, which insert before dispatching), the
detached `_process_event` task returns normally for every dispatch outcome —
business-level failures are absorbed by the try/except and recorded on the
record (`last_error` set, status `failed` or `retry_scheduled`), successes are
recorded as `processed`, and no error is surfaced to the intake or replay
handler. -/
theorem process_event_task_contained (s : Store) (p : StripeWebhookRequest)
    (rec : WebhookLogEntry) (o : Except String Unit) (t m : Nat)
    (h : store_get s p.id = some rec) :
    process_event_task s p o t m = .ok (store_set s p.id (_process_event rec o t m)) ∧
    store_get (store_set s p.id (_process_event rec o t m)) p.id =
      some (_process_event rec o t m) ∧
    (∀ e, o = .error e →
      (_process_event rec o t m).last_error = some e ∧
      ((_process_event rec o t m).status = .failed ∨
        (_process_event rec o t m).status = .retry_scheduled)) ∧
    (o = .ok () → (_process_event rec o t m).status = .processed) := by
  refine ⟨by simp [process_event_task, h], store_get_set_self s p.id _, ?_, ?_⟩
  · rintro e rfl
    rw [process_event_error]
    split <;> simp
  · rintro rfl
    rw [process_event_ok]

/-- Witness for C7: a one-record store; a failing dispatch is absorbed and
recorded, a successful dispatch is recorded as processed. -/
theorem process_event_task_contained_w :
    process_event_task [("evt_1", new_record { id := "evt_1", event_type := "x.y", data := "{}" } 0)]
      { id := "evt_1", event_type := "x.y", data := "{}" } (.error "boom") 1 3 =
      .ok (store_set [("evt_1", new_record { id := "evt_1", event_type := "x.y", data := "{}" } 0)]
        "evt_1"
        (_process_event (new_record { id := "evt_1", event_type := "x.y", data := "{}" } 0)
          (.error "boom") 1 3)) ∧
    (_process_event (new_record { id := "evt_1", event_type := "x.y", data := "{}" } 0)
      (.error "boom") 1 3).last_error = some "boom" ∧
    ((_process_event (new_record { id := "evt_1", event_type := "x.y", data := "{}" } 0)
      (.error "boom") 1 3).status = .failed ∨
     (_process_event (new_record { id := "evt_1", event_type := "x.y", data := "{}" } 0)
      (.error "boom") 1 3).status = .retry_scheduled) := by
  have h := process_event_task_contained
    [("evt_1", new_record { id := "evt_1", event_type := "x.y", data := "{}" } 0)]
    { id := "evt_1", event_type := "x.y", data := "{}" }
    (new_record { id := "evt_1", event_type := "x.y", data := "{}" } 0)
    (.error "boom") 1 3 (by simp [store_get])
  exact ⟨h.1, (h.2.2.1 "boom" rfl).1, (h.2.2.1 "boom" rfl).2⟩

/-- C8 counterexample: a first-time intake on the empty store answers with the
literal accepted response of the code, whose dict carries only `status` and
`event_id` — the `attempts` key is absent (`none`), so the 202 body does not
contain an `attempts` field equal to 0 as claimed. -/
theorem accepted_response_lacks_attempts :
    (receive_webhook [] { id := "evt_1", event_type := "x.y", data := "{}" } 0).response =
      { status := "accepted", event_id := "evt_1", attempts := none } ∧
    (receive_webhook [] { id := "evt_1", event_type := "x.y", data := "{}" } 0).response.attempts
      ≠ some 0 := by
  refine ⟨rfl, ?_⟩
  intro hcontra
  simp [receive_webhook, store_get] at hcontra

/-- C8 (amended): a first-time intake of an event answers 202 "accepted" with
`status` and `event_id` fields (no `attempts` key in the accepted body), and
the record it persists has `attempts = 0`; the `attempts` field appears in the
duplicate response, not the accepted one. -/
theorem first_intake_response (s : Store) (p : StripeWebhookRequest) (t : Nat)
    (h : store_get s p.id = none) :
    (receive_webhook s p t).response.status = "accepted" ∧
    (receive_webhook s p t).response.event_id = p.id ∧
    (receive_webhook s p t).response.attempts = none ∧
    store_get (receive_webhook s p t).store p.id = some (new_record p t) ∧
    (new_record p t).attempts = 0 := by
  rw [receive_webhook_accepted s p t h]
  exact ⟨rfl, rfl, rfl, store_get_set_self s p.id _, rfl⟩

/-- Witness for C8 (amended) at the empty store. -/
theorem first_intake_response_w :
    (receive_webhook [] { id := "evt_1", event_type := "x.y", data := "{}" } 0).response.status
      = "accepted" ∧
    (receive_webhook [] { id := "evt_1", event_type := "x.y", data := "{}" } 0).response.event_id
      = "evt_1" ∧
    (receive_webhook [] { id := "evt_1", event_type := "x.y", data := "{}" } 0).response.attempts
      = none ∧
    store_get (receive_webhook [] { id := "evt_1", event_type := "x.y", data := "{}" } 0).store
      "evt_1" = some (new_record { id := "evt_1", event_type := "x.y", data := "{}" } 0) ∧
    (new_record { id := "evt_1", event_type := "x.y", data := "{}" } 0).attempts = 0 :=
  first_intake_response [] { id := "evt_1", event_type := "x.y", data := "{}" } 0 (by decide)

end SaasWebhooks
